import Mathlib

/-!
Shallow embedding of `bittensor/keyfile.py` (the at-rest encrypted keystore
for one keypair) together with proofs settling the frozen claims about its
specification.

Python `bytes` values are modelled as `List Nat` (each element a byte value).
Calls into third-party cryptographic libraries (`ansible_vault`,
`cryptography`'s PBKDF2HMAC and Fernet, the `password_strength` policy, the
`substrateinterface` SS58 codec, and the external `bittensor.Keypair`
constructors) are modelled as explicit function parameters, so every theorem
quantifies over their possible behaviours; everything the repository itself
computes (magic-marker classification, key-derivation parameter plumbing,
base64 url-safe encoding, JSON record construction, dispatch order, file
writing and permission setting) is embedded concretely.
-/

namespace BTKeyfile

/-- Python `bytes` value: a list of byte values (each `< 256`). -/
abbrev Bytes := List Nat

/-- UTF-8 encoding of one unicode code point, as Python `str.encode()` does. -/
def charUtf8 (c : Char) : Bytes :=
  let n := c.toNat
  if n < 0x80 then [n]
  else if n < 0x800 then [0xC0 + n / 0x40, 0x80 + n % 0x40]
  else if n < 0x10000 then
    [0xE0 + n / 0x1000, 0x80 + (n / 0x40) % 0x40, 0x80 + n % 0x40]
  else
    [0xF0 + n / 0x40000, 0x80 + (n / 0x1000) % 0x40,
     0x80 + (n / 0x40) % 0x40, 0x80 + n % 0x40]

/-- Python `str.encode()`: UTF-8 bytes of a string. -/
def strToBytes (s : String) : Bytes :=
  (s.data.map charUtf8).flatten

/-- True for a UTF-8 continuation byte `0x80 ..= 0xBF`. -/
def isCont (b : Nat) : Bool :=
  0x80 ≤ b && b ≤ 0xBF

/-- Strict UTF-8 decoding to a list of characters, as Python `bytes.decode()`
does (default `utf-8` codec, `strict` errors): rejects invalid leading bytes,
truncated sequences, overlong encodings, surrogate code points and code
points above `0x10FFFF`.  `none` models a raised `UnicodeDecodeError`. -/
def utf8DecodeList : List Nat → Option (List Char)
  | [] => some []
  | b1 :: t1 =>
    if b1 < 0x80 then
      (utf8DecodeList t1).map (fun cs => Char.ofNat b1 :: cs)
    else if 0xC2 ≤ b1 && b1 ≤ 0xDF then
      match t1 with
      | b2 :: t2 =>
        if isCont b2 then
          (utf8DecodeList t2).map
            (fun cs => Char.ofNat ((b1 - 0xC0) * 0x40 + (b2 - 0x80)) :: cs)
        else none
      | [] => none
    else if 0xE0 ≤ b1 && b1 ≤ 0xEF then
      match t1 with
      | b2 :: b3 :: t3 =>
        let lo2 := if b1 == 0xE0 then 0xA0 else 0x80
        let hi2 := if b1 == 0xED then 0x9F else 0xBF
        if lo2 ≤ b2 && b2 ≤ hi2 && isCont b3 then
          (utf8DecodeList t3).map
            (fun cs =>
              Char.ofNat ((b1 - 0xE0) * 0x1000 + (b2 - 0x80) * 0x40 + (b3 - 0x80)) :: cs)
        else none
      | _ => none
    else if 0xF0 ≤ b1 && b1 ≤ 0xF4 then
      match t1 with
      | b2 :: b3 :: b4 :: t4 =>
        let lo2 := if b1 == 0xF0 then 0x90 else 0x80
        let hi2 := if b1 == 0xF4 then 0x8F else 0xBF
        if lo2 ≤ b2 && b2 ≤ hi2 && isCont b3 && isCont b4 then
          (utf8DecodeList t4).map
            (fun cs =>
              Char.ofNat ((b1 - 0xF0) * 0x40000 + (b2 - 0x80) * 0x1000
                + (b3 - 0x80) * 0x40 + (b4 - 0x80)) :: cs)
        else none
      | _ => none
    else none

/-- Python `bytes.decode()`: strict UTF-8 decode to a string, `none` models a
raised `UnicodeDecodeError`. -/
def utf8Decode (l : Bytes) : Option String :=
  (utf8DecodeList l).map String.mk

/-- Lowercase hex digit for a value `< 16`, as Python `bytes.hex()` uses. -/
def hexDigit (n : Nat) : Char :=
  if n < 10 then Char.ofNat (48 + n) else Char.ofNat (87 + n)

/-- Python `bytes.hex()`: lowercase hexadecimal rendering of a byte string. -/
def bytesToHex (b : Bytes) : String :=
  String.mk ((b.map (fun v => [hexDigit (v / 16), hexDigit (v % 16)])).flatten)

/-- The url-safe base64 alphabet `A-Z a-z 0-9 - _` used by Python
`base64.urlsafe_b64encode`. -/
def b64urlAlphabet : List Char :=
  "ABCDEFGHIJKLMNOPQRSTUVWXYZabcdefghijklmnopqrstuvwxyz0123456789-_".data

/-- Byte value of the url-safe base64 character for an index `< 64`. -/
def b64byte (n : Nat) : Nat :=
  (b64urlAlphabet.getD n 'A').toNat

/-- Python `base64.urlsafe_b64encode`: standard base64 with the url-safe
alphabet and `=` (byte 61) padding. -/
def urlsafe_b64encode : Bytes → Bytes
  | [] => []
  | [a] => [b64byte (a / 4), b64byte (a % 4 * 16), 61, 61]
  | [a, b] => [b64byte (a / 4), b64byte (a % 4 * 16 + b / 16), b64byte (b % 16 * 4), 61]
  | a :: b :: c :: rest =>
    b64byte (a / 4) :: b64byte (a % 4 * 16 + b / 16)
      :: b64byte (b % 16 * 4 + c / 64) :: b64byte (c % 64)
      :: urlsafe_b64encode rest

/-- The fixed 14-byte Vault magic marker `b"$ANSIBLE_VAULT"` from
`keyfile_data_is_encrypted_ansible`. -/
def VAULT_MAGIC : Bytes := strToBytes "$ANSIBLE_VAULT"

/-- The fixed 6-byte Legacy magic marker `b"gAAAAA"` from
`keyfile_data_is_encrypted_legacy`. -/
def LEGACY_MAGIC : Bytes := strToBytes "gAAAAA"

/-- `keyfile_data_is_encrypted_ansible`: `keyfile_data[:14] == b"$ANSIBLE_VAULT"`. -/
def keyfile_data_is_encrypted_ansible (keyfile_data : Bytes) : Bool :=
  keyfile_data.take 14 == VAULT_MAGIC

/-- `keyfile_data_is_encrypted_legacy`: `keyfile_data[:6] == b"gAAAAA"`. -/
def keyfile_data_is_encrypted_legacy (keyfile_data : Bytes) : Bool :=
  keyfile_data.take 6 == LEGACY_MAGIC

/-- `keyfile_data_is_encrypted`: ansible-encrypted or legacy-encrypted. -/
def keyfile_data_is_encrypted (keyfile_data : Bytes) : Bool :=
  keyfile_data_is_encrypted_ansible keyfile_data
    || keyfile_data_is_encrypted_legacy keyfile_data

/-- The three on-disk blob formats distinguished by the keystore. -/
inductive Format where
  | Vault
  | Legacy
  | Plaintext
deriving DecidableEq, Repr

/-- Format classification exactly as `decrypt_keyfile_data` dispatches:
the Vault (ansible) magic test first, then the Legacy magic test, else
plaintext. -/
def classify (keyfile_data : Bytes) : Format :=
  if keyfile_data_is_encrypted_ansible keyfile_data then Format.Vault
  else if keyfile_data_is_encrypted_legacy keyfile_data then Format.Legacy
  else Format.Plaintext

/-- The value of `seed_hex` on a `bittensor.Keypair`: the source accepts both
a `str` and a `bytes` value (`keypair.seed_hex if isinstance(keypair.seed_hex,
str) else keypair.seed_hex.hex()`). -/
inductive SeedHex where
  | str (s : String)
  | bytes (b : Bytes)
deriving DecidableEq, Repr

/-- The fields of the external `bittensor.Keypair` object that
`serialized_keypair_to_keyfile_data` reads.  `none` models Python `None`;
empty strings and empty byte strings are distinct from `none` because Python
truthiness treats them alike but they are different values. -/
structure Keypair where
  public_key : Option Bytes
  mnemonic : Option String
  seed_hex : Option SeedHex
  ss58_address : Option String
deriving DecidableEq, Repr

/-- Python truthiness of an optional byte string (`None` and `b""` falsy). -/
def truthyBytes : Option Bytes → Bool
  | some (_ :: _) => true
  | _ => false

/-- Python truthiness of an optional string (`None` and `""` falsy). -/
def truthyStr : Option String → Bool
  | some s => !(s == "")
  | none => false

/-- Python truthiness of an optional `seed_hex` value. -/
def truthySeed : Option SeedHex → Bool
  | some (.str s) => !(s == "")
  | some (.bytes b) => !(b == [])
  | none => false

/-- The `json_data` mapping built by `serialized_keypair_to_keyfile_data`:
an ordered association of field names with nullable string values, exactly
as the dict literal in the source. -/
def serialized_record (keypair : Keypair) : List (String × Option String) :=
  [("accountId",
     if truthyBytes keypair.public_key
     then some ("0x" ++ bytesToHex (keypair.public_key.getD []))
     else none),
   ("publicKey",
     if truthyBytes keypair.public_key
     then some ("0x" ++ bytesToHex (keypair.public_key.getD []))
     else none),
   ("secretPhrase",
     if truthyStr keypair.mnemonic then keypair.mnemonic else none),
   ("secretSeed",
     if truthySeed keypair.seed_hex
     then some ("0x" ++
       (match keypair.seed_hex with
        | some (.str s) => s
        | some (.bytes b) => bytesToHex b
        | none => ""))
     else none),
   ("ss58Address",
     if truthyStr keypair.ss58_address then keypair.ss58_address else none)]

/-- JSON string literal with the escapes Python `json.dumps` emits for the
characters below `0x20`, the quote and the backslash (`ensure_ascii`
differences do not matter for the fields at hand, which stay ASCII in every
witness used here). -/
def jsonString (s : String) : String :=
  "\"" ++ String.mk ((s.data.map (fun c =>
    if c = '"' then ['\\', '"']
    else if c = '\\' then ['\\', '\\']
    else [c])).flatten) ++ "\""

/-- One `"key": value` member of the serialized JSON object. -/
def jsonMember : String × Option String → String
  | (k, none) => jsonString k ++ ": null"
  | (k, some v) => jsonString k ++ ": " ++ jsonString v

/-- Python `json.dumps` on the flat record, with its default `", "` and
`": "` separators. -/
def jsonDumps (record : List (String × Option String)) : String :=
  "\x7b" ++ String.intercalate ", " (record.map jsonMember) ++ "\x7d"

/-- `serialized_keypair_to_keyfile_data`: build the record dict from the
keypair and serialize it with `json.dumps(...).encode()`.  A total
function: serialization never fails. -/
def serialized_keypair_to_keyfile_data (keypair : Keypair) : Bytes :=
  strToBytes (jsonDumps (serialized_record keypair))

/-- Projection of a parsed keyfile dict (`dict(json.loads(...))`) to the
fields `deserialize_keypair_from_keyfile_data` inspects.  For each field,
`none` models key absence, `some none` models a JSON `null` value, and
`some (some v)` a non-null value (carried as the string handed to the
external constructor). -/
structure KeyfileDict where
  accountId : Option (Option String)
  publicKey : Option (Option String)
  secretPhrase : Option (Option String)
  secretSeed : Option (Option String)
  ss58Address : Option (Option String)
deriving DecidableEq, Repr

/-- The exceptions the embedded code can raise, one constructor per distinct
raise site of `keyfile.py`, carrying the payload the formatted message
carries there:
`invalidPassword` is `KeyFileError("Invalid password")` (lines 216 and 229);
`corruptData d` is `KeyFileError("keyfile data: ... is corrupt")` (line 226);
`keypairFromString s` and `keypairFromDict d` are the two
`KeyFileError("Keypair could not be created from keyfile data: ...")` sites
(lines 83 and 95), formatting the decoded string and the parsed record;
`overwriteDenied p` is the `KeyFileError("Keyfile at: ... is not writable")`
raised on a declined overwrite prompt (line 435);
`fileNotExists p`, `fileNotReadable p`, `fileNotWritable p` are the
precondition failures of the `keyfile` methods;
`unicodeDecodeError` is Python's `UnicodeDecodeError` from `bytes.decode()`,
which is not a `KeyFileError` at all. -/
inductive PyError where
  | invalidPassword
  | corruptData (data : Bytes)
  | keypairFromString (s : String)
  | keypairFromDict (d : KeyfileDict)
  | overwriteDenied (path : String)
  | fileNotExists (path : String)
  | fileNotReadable (path : String)
  | fileNotWritable (path : String)
  | unicodeDecodeError
deriving DecidableEq, Repr

/-- The outcome of deserialization: which external `bittensor.Keypair`
constructor is invoked, with the field value handed to it.
`fromSeed` is `Keypair.create_from_seed`, `fromMnemonic` is
`Keypair.create_from_mnemonic`, `fromAddress` is
`Keypair(ss58_address=...)`, the address-only constructor. -/
inductive DeserializedKeypair where
  | fromSeed (v : String)
  | fromMnemonic (v : String)
  | fromAddress (v : String)
deriving DecidableEq, Repr

/-- True when the field is present with a non-`None` value, i.e. the Python
test `"f" in keyfile_dict and keyfile_dict["f"] is not None`. -/
def presentNonNull : Option (Option String) → Bool
  | some (some _) => true
  | _ => false

/-- The reconstruction dispatch of `deserialize_keypair_from_keyfile_data`
(lines 85-95): `secretSeed` first, then `secretPhrase`, then `ss58Address`,
else `KeyFileError` formatting the parsed dict. -/
def dispatchKeypair (d : KeyfileDict) : Except PyError DeserializedKeypair :=
  match d.secretSeed with
  | some (some v) => .ok (.fromSeed v)
  | _ =>
    match d.secretPhrase with
    | some (some v) => .ok (.fromMnemonic v)
    | _ =>
      match d.ss58Address with
      | some (some v) => .ok (.fromAddress v)
      | _ => .error (.keypairFromDict d)

/-- `deserialize_keypair_from_keyfile_data`, parametrized by the external
calls it makes: `parseDict` models `dict(json.loads(s))` returning the
projected record on success and `none` when any exception escapes the
`try` (the bare `except:`), and `ss58Encode` models
`substrateinterface.utils.ss58.ss58_encode` on the raw string.
The byte input is first decoded as strict UTF-8 (line 68, outside the
`try`); the JSON-parse failure fallback accepts strings whose first two
characters are `0x` and builds an address-only record from
`ss58_encode(string_value)`, all other parse failures raise
`KeyFileError` formatting the decoded string. -/
def deserialize_keypair_from_keyfile_data
    (parseDict : String → Option KeyfileDict)
    (ss58Encode : String → String)
    (keyfile_data : Bytes) : Except PyError DeserializedKeypair :=
  match utf8Decode keyfile_data with
  | none => .error .unicodeDecodeError
  | some s =>
    match parseDict s with
    | some d => dispatchKeypair d
    | none =>
      if s.data.take 2 == ['0', 'x'] then
        dispatchKeypair
          { accountId := some none, publicKey := some none,
            secretPhrase := some none, secretSeed := some none,
            ss58Address := some (some (ss58Encode s)) }
      else
        .error (.keypairFromString s)

/-- The fixed hardcoded salt constant `__SALT` of the legacy decrypt path. -/
def legacySalt : Bytes :=
  strToBytes "Iguesscyborgslikemyselfhaveatendencytobeparanoidaboutourorigins"

/-- A Python value as returned by `vault.load`: either `bytes`, or any
non-bytes object identified by its `json.dumps` rendering (the defensive
normalization at lines 231-232 only distinguishes these two cases). -/
inductive PyVal where
  | bytes (b : Bytes)
  | obj (jsonRepr : String)
deriving DecidableEq, Repr

/-- Outcome of `ansible_vault.Vault(password).load(data)`: success returns
the YAML-parsed payload; `authFailed` models the `AnsibleVaultError` raised
on HMAC verification failure (wrong password); `malformed` models the
`AnsibleVaultFormatError` (a subclass of `AnsibleVaultError`) raised when
the envelope after the magic marker cannot be parsed, independent of the
password. -/
inductive VaultOutcome where
  | ok (payload : PyVal)
  | authFailed
  | malformed
deriving DecidableEq, Repr

/-- Outcome of `cryptography.fernet.Fernet(key).decrypt(data)`: success
returns plaintext bytes; `invalidToken` models the `InvalidToken`
exception raised both on authentication-tag mismatch (wrong key) and on a
malformed token. -/
inductive FernetOutcome where
  | ok (plain : Bytes)
  | invalidToken
deriving DecidableEq, Repr

/-- Lines 231-232: a non-bytes decrypted payload is re-serialized with
`json.dumps(...).encode()` before being returned. -/
def normalizePayload : PyVal → Bytes
  | .bytes b => b
  | .obj r => strToBytes r

/-- The symmetric key the legacy branch derives (lines 219-221):
`base64.urlsafe_b64encode(kdf.derive(password.encode()))` where `kdf` is
`PBKDF2HMAC(SHA256, salt=__SALT, length=32, iterations=10000000)`.
`pbkdf2Sha256` abstracts the KDF itself as a function of (password bytes,
salt, iterations, output length). -/
def legacyDerivedKey (pbkdf2Sha256 : Bytes → Bytes → Nat → Nat → Bytes)
    (password : String) : Bytes :=
  urlsafe_b64encode (pbkdf2Sha256 (strToBytes password) legacySalt 10000000 32)

/-- `decrypt_keyfile_data` (the branch on already-resolved password),
parametrized by the external cryptographic calls: `vaultLoad password data`
models `Vault(password).load(data)`, `fernetDecrypt key data` models
`Fernet(key).decrypt(data)`, `pbkdf2Sha256` the PBKDF2-HMAC-SHA256
derivation.  Both `AnsibleVaultError` outcomes are caught by the
`except AnsibleVaultError` clause and re-raised as
`KeyFileError("Invalid password")`; `InvalidToken` is caught by the outer
`except (InvalidSignature, InvalidKey, InvalidToken)` with the same
re-raise; data matching neither magic raises the corrupt-data error without
touching either decrypt path. -/
def decrypt_keyfile_data
    (vaultLoad : String → Bytes → VaultOutcome)
    (fernetDecrypt : Bytes → Bytes → FernetOutcome)
    (pbkdf2Sha256 : Bytes → Bytes → Nat → Nat → Bytes)
    (keyfile_data : Bytes) (password : String) : Except PyError Bytes :=
  if keyfile_data_is_encrypted_ansible keyfile_data then
    match vaultLoad password keyfile_data with
    | .ok payload => .ok (normalizePayload payload)
    | .authFailed => .error .invalidPassword
    | .malformed => .error .invalidPassword
  else if keyfile_data_is_encrypted_legacy keyfile_data then
    match fernetDecrypt (legacyDerivedKey pbkdf2Sha256 password) keyfile_data with
    | .ok plain => .ok plain
    | .invalidToken => .error .invalidPassword
  else
    .error (.corruptData keyfile_data)

/-- The spec's `CorruptRecord` cause tag: the `KeyFileError`s whose message
reports content that cannot be recognized or decoded (the corrupt-data raise
of `decrypt_keyfile_data` and the two could-not-create-keypair raises of the
codec). -/
def PyError.isCorruptRecord : PyError → Bool
  | .corruptData _ => true
  | .keypairFromString _ => true
  | .keypairFromDict _ => true
  | _ => false

/-- The spec's `InvalidPassword` cause tag. -/
def PyError.isInvalidPassword : PyError → Bool
  | .invalidPassword => true
  | _ => false

/-- `validate_password`, parametrized by the external policy evaluation
and the interactive confirmation: `policyOk pw` models
`len(policy.password(pw).test()) == 0` for the
`PasswordPolicy.from_names(strength=0.20, entropybits=10, length=6)`
policy of the `password_strength` library, and `confirmation` models the
string returned by the `getpass` re-entry prompt.  The password argument is
`Option String` so `None` is representable; `not password` is Python
truthiness (both `None` and the empty string fail it). -/
def validate_password (policyOk : String → Bool) (confirmation : String)
    (password : Option String) : Bool :=
  match password with
  | none => false
  | some pw =>
    if pw == "" then false
    else if !policyOk pw then false
    else pw == confirmation

/-- State of the file at the keystore's path: its byte content and its
permission mode bits. -/
structure FileState where
  content : Bytes
  mode : Nat
deriving DecidableEq, Repr

/-- `stat.S_IRUSR`: owner-read permission bit. -/
def S_IRUSR : Nat := 0x100

/-- `stat.S_IWUSR`: owner-write permission bit. -/
def S_IWUSR : Nat := 0x80

/-- `keyfile._may_overwrite`: the interactive confirmation grants permission
exactly when the response string is `"y"` (`choice == 'y'`). -/
def may_overwrite (choice : String) : Bool :=
  choice == "y"

/-- `keyfile._write_keyfile_data_to_file`: given the current file state at
the path (`none` when no file exists), the user's answer to the overwrite
prompt, the data, and the `overwrite` flag.  Returns the operation outcome
together with the resulting file state; a raised `KeyFileError` leaves the
file untouched.  On the success path the file is written and
`os.chmod(path, stat.S_IRUSR | stat.S_IWUSR)` sets the mode
unconditionally. -/
def write_keyfile_data_to_file (path : String) (fs : Option FileState)
    (answer : String) (keyfile_data : Bytes) (overwrite : Bool) :
    Except PyError Unit × Option FileState :=
  if fs.isSome && !overwrite && !may_overwrite answer then
    (.error (.overwriteDenied path), fs)
  else
    (.ok (), some ⟨keyfile_data, S_IRUSR ||| S_IWUSR⟩)

/-- `keyfile.set_keypair`: serialize the keypair, optionally encrypt
(`encryptFn` models `encrypt_keyfile_data` under the resolved password,
whose output is opaque vault ciphertext), then write with overwrite
gating.  `make_dirs` touches only the parent directory and is not part of
the file state. -/
def keyfile_set_keypair (path : String) (fs : Option FileState)
    (keypair : Keypair) (encryptFlag : Bool) (overwrite : Bool)
    (answer : String) (encryptFn : Bytes → Bytes) :
    Except PyError Unit × Option FileState :=
  let keyfile_data := serialized_keypair_to_keyfile_data keypair
  let keyfile_data := if encryptFlag then encryptFn keyfile_data else keyfile_data
  write_keyfile_data_to_file path fs answer keyfile_data overwrite

/-- `keyfile.encrypt`: precondition checks (`exists_on_device`,
`is_readable`, `is_writable` — the access checks modelled by the two
booleans), then read; if the content is not already encrypted, it is
round-tripped through the codec (`realize` models the external keypair
construction the deserializer performs) and encrypted with `encryptFn`;
finally written back with `overwrite=True` (no prompt). -/
def keyfile_encrypt (path : String) (fs : Option FileState)
    (readable writable : Bool)
    (parseDict : String → Option KeyfileDict) (ss58Encode : String → String)
    (realize : DeserializedKeypair → Keypair) (encryptFn : Bytes → Bytes) :
    Except PyError Unit × Option FileState :=
  match fs with
  | none => (.error (.fileNotExists path), fs)
  | some st =>
    if !readable then (.error (.fileNotReadable path), fs)
    else if !writable then (.error (.fileNotWritable path), fs)
    else if keyfile_data_is_encrypted st.content then
      write_keyfile_data_to_file path fs "" st.content true
    else
      match deserialize_keypair_from_keyfile_data parseDict ss58Encode st.content with
      | .error e => (.error e, fs)
      | .ok dk =>
        let keyfile_data := serialized_keypair_to_keyfile_data (realize dk)
        write_keyfile_data_to_file path fs "" (encryptFn keyfile_data) true

/-- `keyfile.decrypt`: precondition checks as in `keyfile.encrypt`, then
read; encrypted content is decrypted through `decrypt_keyfile_data`; the
plaintext is round-tripped through the codec and written back with
`overwrite=True`. -/
def keyfile_decrypt (path : String) (fs : Option FileState)
    (readable writable : Bool)
    (vaultLoad : String → Bytes → VaultOutcome)
    (fernetDecrypt : Bytes → Bytes → FernetOutcome)
    (pbkdf2Sha256 : Bytes → Bytes → Nat → Nat → Bytes)
    (parseDict : String → Option KeyfileDict) (ss58Encode : String → String)
    (realize : DeserializedKeypair → Keypair) (password : String) :
    Except PyError Unit × Option FileState :=
  match fs with
  | none => (.error (.fileNotExists path), fs)
  | some st =>
    if !readable then (.error (.fileNotReadable path), fs)
    else if !writable then (.error (.fileNotWritable path), fs)
    else
      let decrypted :=
        if keyfile_data_is_encrypted st.content then
          decrypt_keyfile_data vaultLoad fernetDecrypt pbkdf2Sha256 st.content password
        else .ok st.content
      match decrypted with
      | .error e => (.error e, fs)
      | .ok data =>
        match deserialize_keypair_from_keyfile_data parseDict ss58Encode data with
        | .error e => (.error e, fs)
        | .ok dk =>
          write_keyfile_data_to_file path fs ""
            (serialized_keypair_to_keyfile_data (realize dk)) true

example : utf8Decode (strToBytes "0xab") = some "0xab" := by decide
example : utf8Decode [0xFF] = none := by decide
example : VAULT_MAGIC.length = 14 := by decide
example : LEGACY_MAGIC.length = 6 := by decide
example : urlsafe_b64encode (strToBytes "hi") = strToBytes "aGk=" := by decide

/-- The Vault magic marker as explicit byte values. -/
theorem vault_magic_bytes :
    VAULT_MAGIC = [36, 65, 78, 83, 73, 66, 76, 69, 95, 86, 65, 85, 76, 84] := by
  decide

/-- The Legacy magic marker as explicit byte values. -/
theorem legacy_magic_bytes : LEGACY_MAGIC = [103, 65, 65, 65, 65, 65] := by
  decide

/-- A byte string whose first 6 bytes are the Legacy magic does not start
with the Vault magic: the markers differ in their first byte. -/
theorem magic_markers_disjoint (d : Bytes) (h6 : d.take 6 = LEGACY_MAGIC) :
    d.take 14 ≠ VAULT_MAGIC := by
  intro h14
  cases d with
  | nil => rw [List.take_nil] at h6; exact absurd h6 (by decide)
  | cons b t =>
    rw [legacy_magic_bytes, List.take_succ_cons, List.cons.injEq] at h6
    rw [vault_magic_bytes, List.take_succ_cons, List.cons.injEq] at h14
    omega

/-- The boolean magic tests, rewritten as propositional equalities. -/
theorem is_encrypted_ansible_iff (d : Bytes) :
    keyfile_data_is_encrypted_ansible d = true ↔ d.take 14 = VAULT_MAGIC := by
  simp [keyfile_data_is_encrypted_ansible]

/-- The boolean Legacy magic test, rewritten as a propositional equality. -/
theorem is_encrypted_legacy_iff (d : Bytes) :
    keyfile_data_is_encrypted_legacy d = true ↔ d.take 6 = LEGACY_MAGIC := by
  simp [keyfile_data_is_encrypted_legacy]

/-- C3: format classification is purely prefix-based and prefix-exact:
a byte string is classified Vault iff its first 14 bytes equal the Vault
magic, Legacy iff it is not Vault-classified and its first 6 bytes equal the
Legacy magic, Plaintext otherwise; a byte string beginning with the Vault
magic is never classified Legacy and one beginning with the Legacy magic is
never classified Vault (the Vault test is performed first, mirroring the
source's if/elif order, though the markers are disjoint so the order is
observationally forced only through the not-Vault conjunct). -/
theorem claim_C3_classification_prefix_exact (d : Bytes) :
    (classify d = Format.Vault ↔ d.take 14 = VAULT_MAGIC)
    ∧ (classify d = Format.Legacy ↔
        d.take 14 ≠ VAULT_MAGIC ∧ d.take 6 = LEGACY_MAGIC)
    ∧ (classify d = Format.Plaintext ↔
        d.take 14 ≠ VAULT_MAGIC ∧ d.take 6 ≠ LEGACY_MAGIC)
    ∧ (d.take 14 = VAULT_MAGIC → classify d ≠ Format.Legacy)
    ∧ (d.take 6 = LEGACY_MAGIC → classify d ≠ Format.Vault) := by
  by_cases hv : d.take 14 = VAULT_MAGIC
  · have hl : d.take 6 ≠ LEGACY_MAGIC := fun h6 => magic_markers_disjoint d h6 hv
    simp [classify, keyfile_data_is_encrypted_ansible,
      keyfile_data_is_encrypted_legacy, hv, hl]
  · by_cases hl : d.take 6 = LEGACY_MAGIC
    · simp [classify, keyfile_data_is_encrypted_ansible,
        keyfile_data_is_encrypted_legacy, hv, hl]
    · simp [classify, keyfile_data_is_encrypted_ansible,
        keyfile_data_is_encrypted_legacy, hv, hl]

/-- Witness for C3 at concrete inputs: a Vault-prefixed, a Legacy-prefixed
and an unmarked byte string receive the three classifications. -/
theorem claim_C3_classification_prefix_exact_witness :
    classify (strToBytes "$ANSIBLE_VAULT;1.1;AES256") = Format.Vault
    ∧ classify (strToBytes "gAAAAAbbbb") = Format.Legacy
    ∧ classify (strToBytes "0xabcd") = Format.Plaintext
    ∧ classify (strToBytes "gAAAAAbbbb") ≠ Format.Vault :=
  ⟨(claim_C3_classification_prefix_exact _).1.mpr (by decide),
   (claim_C3_classification_prefix_exact _).2.1.mpr (by decide),
   (claim_C3_classification_prefix_exact _).2.2.1.mpr (by decide),
   (claim_C3_classification_prefix_exact _).2.2.2.2 (by decide)⟩

/-- C4 counterexample: the record built by
`serialized_keypair_to_keyfile_data` has field names `accountId`,
`publicKey`, `secretPhrase`, `secretSeed`, `ss58Address`; it contains no
field named `address`, contradicting the claim's field list. -/
theorem claim_C4_counterexample :
    (serialized_record ⟨none, none, none, none⟩).map Prod.fst
      = ["accountId", "publicKey", "secretPhrase", "secretSeed", "ss58Address"]
    ∧ ¬ "address" ∈ (serialized_record ⟨none, none, none, none⟩).map Prod.fst := by
  decide

/-- C4 as amended: encoding a keypair is a total function (it never fails)
and always produces a record with exactly the five fixed field names
`accountId`, `publicKey`, `secretPhrase`, `secretSeed`, `ss58Address`, in
this order, each field present with a nullable value. -/
theorem claim_C4_record_fields (keypair : Keypair) :
    (serialized_record keypair).map Prod.fst
      = ["accountId", "publicKey", "secretPhrase", "secretSeed", "ss58Address"]
    ∧ serialized_keypair_to_keyfile_data keypair
      = strToBytes (jsonDumps (serialized_record keypair)) :=
  ⟨rfl, rfl⟩

/-- C10: the interactive overwrite confirmation grants permission exactly
when the response is the single lowercase character `y`; `Y`, `yes` and the
empty string are denials, and on an existing file with `overwrite=False`
any non-`y` answer makes the write fail and leaves the file unchanged,
while `y` lets it proceed. -/
theorem claim_C10_only_lowercase_y :
    (∀ choice, may_overwrite choice = true ↔ choice = "y")
    ∧ may_overwrite "Y" = false
    ∧ may_overwrite "yes" = false
    ∧ may_overwrite "" = false
    ∧ (∀ path st data answer, answer ≠ "y" →
        write_keyfile_data_to_file path (some st) answer data false
          = (.error (.overwriteDenied path), some st))
    ∧ (∀ path st data,
        write_keyfile_data_to_file path (some st) "y" data false
          = (.ok (), some ⟨data, S_IRUSR ||| S_IWUSR⟩)) := by
  refine ⟨fun choice => ?_, by decide, by decide, by decide,
    fun path st data answer h => ?_, fun path st data => ?_⟩
  · simp [may_overwrite]
  · simp [write_keyfile_data_to_file, may_overwrite, h]
  · simp [write_keyfile_data_to_file, may_overwrite]

/-- Witness for C10 at concrete inputs: the answers `Y` and the empty
string deny and leave the file as it was; `y` overwrites. -/
theorem claim_C10_only_lowercase_y_witness :
    write_keyfile_data_to_file "p" (some ⟨[1, 2], 384⟩) "Y" [9] false
      = (.error (.overwriteDenied "p"), some ⟨[1, 2], 384⟩)
    ∧ write_keyfile_data_to_file "p" (some ⟨[1, 2], 384⟩) "" [9] false
      = (.error (.overwriteDenied "p"), some ⟨[1, 2], 384⟩)
    ∧ write_keyfile_data_to_file "p" (some ⟨[1, 2], 384⟩) "y" [9] false
      = (.ok (), some ⟨[9], S_IRUSR ||| S_IWUSR⟩)
    ∧ may_overwrite "y" = true :=
  ⟨claim_C10_only_lowercase_y.2.2.2.2.1 _ _ _ _ (by decide),
   claim_C10_only_lowercase_y.2.2.2.2.1 _ _ _ _ (by decide),
   claim_C10_only_lowercase_y.2.2.2.2.2 _ _ _,
   (claim_C10_only_lowercase_y.1 _).mpr rfl⟩

/-- Legacy-prefixed data never passes the ansible magic test. -/
theorem legacy_not_ansible (d : Bytes)
    (hleg : keyfile_data_is_encrypted_legacy d = true) :
    keyfile_data_is_encrypted_ansible d = false := by
  have h14 := magic_markers_disjoint d ((is_encrypted_legacy_iff d).mp hleg)
  rcases Bool.eq_false_or_eq_true (keyfile_data_is_encrypted_ansible d) with h | h
  · exact absurd ((is_encrypted_ansible_iff d).mp h) h14
  · exact h

/-- C1 counterexample: a Vault-format blob whose envelope is malformed
independent of the password (the vault library raising
`AnsibleVaultFormatError`, a subclass of the caught `AnsibleVaultError`)
makes `decrypt_keyfile_data` fail with `Invalid password`, not with the
corrupt-record error the claim requires for malformed envelopes. -/
theorem claim_C1_counterexample :
    decrypt_keyfile_data (fun _ _ => VaultOutcome.malformed)
        (fun _ _ => FernetOutcome.invalidToken) (fun _ _ _ _ => [])
        (strToBytes "$ANSIBLE_VAULT;1.1;AES256") "anypassword"
      = Except.error PyError.invalidPassword
    ∧ PyError.isCorruptRecord PyError.invalidPassword = false
    ∧ keyfile_data_is_encrypted_ansible
        (strToBytes "$ANSIBLE_VAULT;1.1;AES256") = true :=
  ⟨rfl, rfl, rfl⟩

/-- C1 as amended: on a Vault-format blob, `decrypt_keyfile_data` fails
with `InvalidPassword` both when authentication fails and when the envelope
is malformed (the `except AnsibleVaultError` clause does not distinguish
them), and succeeds otherwise; on a Legacy-format blob an
authentication-tag mismatch (in particular a wrong password) fails with
`InvalidPassword`; on a blob matching neither magic it always fails with
the corrupt-data error, for every password and independent of either
decrypt back end (no decrypt path is attempted). -/
theorem claim_C1_decrypt_error_cases
    (vaultLoad : String → Bytes → VaultOutcome)
    (fernetDecrypt : Bytes → Bytes → FernetOutcome)
    (pbkdf2Sha256 : Bytes → Bytes → Nat → Nat → Bytes)
    (data : Bytes) (password : String) :
    (keyfile_data_is_encrypted_ansible data = true →
      ((vaultLoad password data = VaultOutcome.authFailed
          ∨ vaultLoad password data = VaultOutcome.malformed) →
        decrypt_keyfile_data vaultLoad fernetDecrypt pbkdf2Sha256 data password
          = Except.error PyError.invalidPassword)
      ∧ (∀ payload, vaultLoad password data = VaultOutcome.ok payload →
          decrypt_keyfile_data vaultLoad fernetDecrypt pbkdf2Sha256 data password
            = Except.ok (normalizePayload payload)))
    ∧ (keyfile_data_is_encrypted_legacy data = true →
        fernetDecrypt (legacyDerivedKey pbkdf2Sha256 password) data
          = FernetOutcome.invalidToken →
        decrypt_keyfile_data vaultLoad fernetDecrypt pbkdf2Sha256 data password
          = Except.error PyError.invalidPassword)
    ∧ (keyfile_data_is_encrypted_ansible data = false →
        keyfile_data_is_encrypted_legacy data = false →
        decrypt_keyfile_data vaultLoad fernetDecrypt pbkdf2Sha256 data password
          = Except.error (PyError.corruptData data)
        ∧ PyError.isCorruptRecord (PyError.corruptData data) = true) := by
  refine ⟨fun hans => ⟨fun hv => ?_, fun payload hp => ?_⟩,
    fun hleg hf => ?_, fun hans hleg => ?_⟩
  · rcases hv with hv | hv <;> simp [decrypt_keyfile_data, hans, hv]
  · simp [decrypt_keyfile_data, hans, hp]
  · have hans := legacy_not_ansible data hleg
    simp [decrypt_keyfile_data, hans, hleg, hf]
  · simp [decrypt_keyfile_data, hans, hleg, PyError.isCorruptRecord]

/-- Witness for C1 (amended) at concrete inputs: a Vault blob under an
auth-failing back end, a Legacy blob under a token-rejecting back end, and
an unmarked blob. -/
theorem claim_C1_decrypt_error_cases_witness :
    decrypt_keyfile_data (fun _ _ => VaultOutcome.authFailed)
        (fun _ _ => FernetOutcome.invalidToken) (fun _ _ _ _ => [])
        (strToBytes "$ANSIBLE_VAULT;1.1;AES256") "w2"
      = Except.error PyError.invalidPassword
    ∧ decrypt_keyfile_data (fun _ _ => VaultOutcome.authFailed)
        (fun _ _ => FernetOutcome.invalidToken) (fun _ _ _ _ => [])
        (strToBytes "gAAAAAxxxx") "w2"
      = Except.error PyError.invalidPassword
    ∧ decrypt_keyfile_data (fun _ _ => VaultOutcome.authFailed)
        (fun _ _ => FernetOutcome.invalidToken) (fun _ _ _ _ => [])
        (strToBytes "plain text") "w2"
      = Except.error (PyError.corruptData (strToBytes "plain text")) :=
  ⟨((claim_C1_decrypt_error_cases _ _ _ _ _).1 (by decide)).1 (Or.inl rfl),
   (claim_C1_decrypt_error_cases _ _ _ _ _).2.1 (by decide) rfl,
   ((claim_C1_decrypt_error_cases _ _ _ _ _).2.2 (by decide) (by decide)).1⟩

/-- Length of a url-safe base64 encoding: four output bytes per started
three-byte input group. -/
theorem urlsafe_b64encode_length :
    ∀ l : Bytes, (urlsafe_b64encode l).length = 4 * ((l.length + 2) / 3)
  | [] => by simp [urlsafe_b64encode]
  | [_] => by simp [urlsafe_b64encode]
  | [_, _] => by simp [urlsafe_b64encode]
  | _ :: _ :: _ :: rest => by
    simp only [urlsafe_b64encode, List.length_cons,
      urlsafe_b64encode_length rest]
    omega

/-- C2: the Legacy decrypt path keys its authenticated cipher with exactly
`urlsafe_b64encode(PBKDF2-HMAC-SHA256(password, salt, 10000000 iterations,
32 bytes))` where the salt is the fixed hardcoded constant (given here
bit-for-bit); the derived key is a function of the password alone (the
closed form mentions nothing else), and for a 32-byte KDF output the
encoded key has the 44-byte length of base64 for 32 bytes. -/
theorem claim_C2_legacy_kdf_parameters
    (vaultLoad : String → Bytes → VaultOutcome)
    (fernetDecrypt : Bytes → Bytes → FernetOutcome)
    (pbkdf2Sha256 : Bytes → Bytes → Nat → Nat → Bytes)
    (data : Bytes) (password : String)
    (hleg : keyfile_data_is_encrypted_legacy data = true) :
    decrypt_keyfile_data vaultLoad fernetDecrypt pbkdf2Sha256 data password
      = (match fernetDecrypt
            (urlsafe_b64encode
              (pbkdf2Sha256 (strToBytes password) legacySalt 10000000 32))
            data with
         | FernetOutcome.ok plain => Except.ok plain
         | FernetOutcome.invalidToken => Except.error PyError.invalidPassword)
    ∧ legacySalt
      = [73, 103, 117, 101, 115, 115, 99, 121, 98, 111, 114, 103, 115, 108,
         105, 107, 101, 109, 121, 115, 101, 108, 102, 104, 97, 118, 101, 97,
         116, 101, 110, 100, 101, 110, 99, 121, 116, 111, 98, 101, 112, 97,
         114, 97, 110, 111, 105, 100, 97, 98, 111, 117, 116, 111, 117, 114,
         111, 114, 105, 103, 105, 110, 115]
    ∧ ((pbkdf2Sha256 (strToBytes password) legacySalt 10000000 32).length = 32 →
        (legacyDerivedKey pbkdf2Sha256 password).length = 44) := by
  refine ⟨?_, by decide, fun h32 => ?_⟩
  · have hans := legacy_not_ansible data hleg
    simp [decrypt_keyfile_data, hans, hleg, legacyDerivedKey]
  · rw [legacyDerivedKey, urlsafe_b64encode_length, h32]

/-- Witness for C2 at concrete inputs: a Legacy-prefixed blob, a KDF stub
returning 32 bytes, and a cipher stub echoing its key show the derived key
reaching the cipher and its 44-byte length. -/
theorem claim_C2_legacy_kdf_parameters_witness :
    decrypt_keyfile_data (fun _ _ => VaultOutcome.authFailed)
        (fun key _ => FernetOutcome.ok key)
        (fun _ _ _ _ => List.replicate 32 7) (strToBytes "gAAAAAxxxx") "pw"
      = Except.ok (urlsafe_b64encode (List.replicate 32 7))
    ∧ (legacyDerivedKey (fun _ _ _ _ => List.replicate 32 7) "pw").length = 44 := by
  have h := claim_C2_legacy_kdf_parameters (fun _ _ => VaultOutcome.authFailed)
    (fun key _ => FernetOutcome.ok key) (fun _ _ _ _ => List.replicate 32 7)
    (strToBytes "gAAAAAxxxx") "pw" (by decide)
  exact ⟨h.1, h.2.2 (by decide)⟩

/-- C5: on a record that parses as the structured encoding, reconstruction
prefers `secretSeed` over `secretPhrase` over `ss58Address`: a present
non-null `secretSeed` is used even when the other fields are present, a
present non-null `secretPhrase` is used over `ss58Address`, an
`ss58Address`-only record yields the address-only constructor, and when all
three are absent or null the deserializer fails with the corrupt-record
error carrying the offending parsed content. -/
theorem claim_C5_reconstruction_priority
    (parseDict : String → Option KeyfileDict) (ss58Encode : String → String)
    (data : Bytes) (s : String) (d : KeyfileDict)
    (hdec : utf8Decode data = some s) (hparse : parseDict s = some d) :
    (∀ v, d.secretSeed = some (some v) →
      deserialize_keypair_from_keyfile_data parseDict ss58Encode data
        = Except.ok (DeserializedKeypair.fromSeed v))
    ∧ (presentNonNull d.secretSeed = false →
        ∀ v, d.secretPhrase = some (some v) →
        deserialize_keypair_from_keyfile_data parseDict ss58Encode data
          = Except.ok (DeserializedKeypair.fromMnemonic v))
    ∧ (presentNonNull d.secretSeed = false →
        presentNonNull d.secretPhrase = false →
        ∀ v, d.ss58Address = some (some v) →
        deserialize_keypair_from_keyfile_data parseDict ss58Encode data
          = Except.ok (DeserializedKeypair.fromAddress v))
    ∧ (presentNonNull d.secretSeed = false →
        presentNonNull d.secretPhrase = false →
        presentNonNull d.ss58Address = false →
        deserialize_keypair_from_keyfile_data parseDict ss58Encode data
          = Except.error (PyError.keypairFromDict d)
        ∧ PyError.isCorruptRecord (PyError.keypairFromDict d) = true) := by
  have hrw : deserialize_keypair_from_keyfile_data parseDict ss58Encode data
      = dispatchKeypair d := by
    simp [deserialize_keypair_from_keyfile_data, hdec, hparse]
  refine ⟨fun v hv => ?_, fun hs v hp => ?_, fun hs hp v ha => ?_,
    fun hs hp ha => ⟨?_, rfl⟩⟩ <;> rw [hrw]
  · simp [dispatchKeypair, hv]
  · rcases hss : d.secretSeed with _ | (_ | w)
    · simp [dispatchKeypair, hss, hp]
    · simp [dispatchKeypair, hss, hp]
    · rw [hss] at hs; exact absurd hs (by simp [presentNonNull])
  · rcases hss : d.secretSeed with _ | (_ | w)
    case some.some => rw [hss] at hs; exact absurd hs (by simp [presentNonNull])
    all_goals rcases hsp : d.secretPhrase with _ | (_ | w')
    case some.some => rw [hsp] at hp; exact absurd hp (by simp [presentNonNull])
    case some.some => rw [hsp] at hp; exact absurd hp (by simp [presentNonNull])
    all_goals simp [dispatchKeypair, hss, hsp, ha]
  · rcases hss : d.secretSeed with _ | (_ | w)
    case some.some => rw [hss] at hs; exact absurd hs (by simp [presentNonNull])
    all_goals rcases hsp : d.secretPhrase with _ | (_ | w')
    case some.some => rw [hsp] at hp; exact absurd hp (by simp [presentNonNull])
    case some.some => rw [hsp] at hp; exact absurd hp (by simp [presentNonNull])
    all_goals rcases hsa : d.ss58Address with _ | (_ | w'')
    case some.some => rw [hsa] at ha; exact absurd ha (by simp [presentNonNull])
    case some.some => rw [hsa] at ha; exact absurd ha (by simp [presentNonNull])
    case some.some => rw [hsa] at ha; exact absurd ha (by simp [presentNonNull])
    case some.some => rw [hsa] at ha; exact absurd ha (by simp [presentNonNull])
    all_goals simp [dispatchKeypair, hss, hsp, hsa]

/-- Witness for C5 at concrete inputs: four records showing the priority
chain seed over phrase over address and the all-null failure. -/
theorem claim_C5_reconstruction_priority_witness :
    deserialize_keypair_from_keyfile_data
        (fun _ => some ⟨some none, some none, some (some "m"),
          some (some "0xseed"), some (some "addr")⟩)
        (fun s => s) (strToBytes "rec")
      = Except.ok (DeserializedKeypair.fromSeed "0xseed")
    ∧ deserialize_keypair_from_keyfile_data
        (fun _ => some ⟨some none, some none, some (some "m"), some none,
          some (some "addr")⟩)
        (fun s => s) (strToBytes "rec")
      = Except.ok (DeserializedKeypair.fromMnemonic "m")
    ∧ deserialize_keypair_from_keyfile_data
        (fun _ => some ⟨some none, some none, none, none, some (some "addr")⟩)
        (fun s => s) (strToBytes "rec")
      = Except.ok (DeserializedKeypair.fromAddress "addr")
    ∧ deserialize_keypair_from_keyfile_data
        (fun _ => some ⟨some none, some none, some none, none, some none⟩)
        (fun s => s) (strToBytes "rec")
      = Except.error (PyError.keypairFromDict
          ⟨some none, some none, some none, none, some none⟩) :=
  ⟨(claim_C5_reconstruction_priority _ _ _ "rec" _ (by decide) rfl).1 _ rfl,
   (claim_C5_reconstruction_priority _ _ _ "rec" _ (by decide) rfl).2.1
     (by decide) _ rfl,
   (claim_C5_reconstruction_priority _ _ _ "rec" _ (by decide) rfl).2.2.1
     (by decide) (by decide) _ rfl,
   ((claim_C5_reconstruction_priority _ _ _ "rec" _ (by decide) rfl).2.2.2
     (by decide) (by decide) (by decide)).1⟩

/-- C6 counterexample: the byte string `[0xFF]` does not parse as the
structured encoding and does not begin with `0x`, yet deserialization fails
with Python's `UnicodeDecodeError` from the `bytes.decode()` call outside
the `try` block — not with a corrupt-record `KeyFileError` as the claim
requires. -/
theorem claim_C6_counterexample :
    deserialize_keypair_from_keyfile_data (fun _ => none) (fun s => s) [255]
      = Except.error PyError.unicodeDecodeError
    ∧ PyError.isCorruptRecord PyError.unicodeDecodeError = false :=
  ⟨rfl, rfl⟩

/-- C6 as amended: for every byte string that decodes as UTF-8 text but
does not parse as the structured encoding, if the text begins with `0x` the
deserializer passes the whole text through the address-encoding function
and yields the address-only constructor, otherwise it fails with the
corrupt-record error carrying the text; a byte string that is not valid
UTF-8 instead fails with a Unicode decoding error, which is not a
`KeyFileError`. -/
theorem claim_C6_raw_address_fallback
    (parseDict : String → Option KeyfileDict) (ss58Encode : String → String)
    (data : Bytes) :
    (∀ s, utf8Decode data = some s → parseDict s = none →
      (s.data.take 2 = ['0', 'x'] →
        deserialize_keypair_from_keyfile_data parseDict ss58Encode data
          = Except.ok (DeserializedKeypair.fromAddress (ss58Encode s)))
      ∧ (s.data.take 2 ≠ ['0', 'x'] →
        deserialize_keypair_from_keyfile_data parseDict ss58Encode data
          = Except.error (PyError.keypairFromString s)
        ∧ PyError.isCorruptRecord (PyError.keypairFromString s) = true))
    ∧ (utf8Decode data = none →
        deserialize_keypair_from_keyfile_data parseDict ss58Encode data
          = Except.error PyError.unicodeDecodeError) := by
  refine ⟨fun s hdec hparse => ⟨fun h0x => ?_, fun hnot => ?_⟩, fun hnone => ?_⟩
  · simp [deserialize_keypair_from_keyfile_data, hdec, hparse, h0x,
      dispatchKeypair]
  · have hfalse : (s.data.take 2 == ['0', 'x']) = false := by
      simpa using hnot
    refine ⟨?_, rfl⟩
    simp [deserialize_keypair_from_keyfile_data, hdec, hparse, hfalse]
  · simp [deserialize_keypair_from_keyfile_data, hnone]

/-- Witness for C6 (amended) at concrete inputs: a non-JSON `0x` string
decodes to an address-only record, a non-JSON non-`0x` string raises the
corrupt-record error, and an invalid UTF-8 byte raises the decode error. -/
theorem claim_C6_raw_address_fallback_witness :
    deserialize_keypair_from_keyfile_data (fun _ => none) (fun s => s ++ "!")
        (strToBytes "0xab")
      = Except.ok (DeserializedKeypair.fromAddress "0xab!")
    ∧ deserialize_keypair_from_keyfile_data (fun _ => none) (fun s => s ++ "!")
        (strToBytes "zz")
      = Except.error (PyError.keypairFromString "zz")
    ∧ deserialize_keypair_from_keyfile_data (fun _ => none) (fun s => s ++ "!")
        [255]
      = Except.error PyError.unicodeDecodeError :=
  ⟨((claim_C6_raw_address_fallback _ _ _).1 "0xab" (by decide) rfl).1 (by decide),
   (((claim_C6_raw_address_fallback _ _ _).1 "zz" (by decide) rfl).2
     (by decide)).1,
   (claim_C6_raw_address_fallback _ _ _).2 (by decide)⟩

/-- C7: `set_keypair` with `overwrite=False` on an existing file, when the
interactive confirmation answers anything but `y`, fails with the
overwrite-denied `KeyFileError` (an error, not a soft success) and leaves
the existing file state — bytes and mode — unchanged. -/
theorem claim_C7_overwrite_denied_unchanged
    (path : String) (st : FileState) (keypair : Keypair) (encryptFlag : Bool)
    (encryptFn : Bytes → Bytes) (answer : String) (hno : answer ≠ "y") :
    keyfile_set_keypair path (some st) keypair encryptFlag false answer encryptFn
      = (Except.error (PyError.overwriteDenied path), some st) := by
  have h : may_overwrite answer = false := by
    simpa [may_overwrite] using hno
  simp [keyfile_set_keypair, write_keyfile_data_to_file, h]

/-- Witness for C7 at a concrete input: answer `n` on an existing file. -/
theorem claim_C7_overwrite_denied_unchanged_witness :
    keyfile_set_keypair "p" (some ⟨[1, 2, 3], 384⟩) ⟨none, none, none, none⟩
        true false "n" (fun b => b)
      = (Except.error (PyError.overwriteDenied "p"), some ⟨[1, 2, 3], 384⟩) :=
  claim_C7_overwrite_denied_unchanged "p" ⟨[1, 2, 3], 384⟩
    ⟨none, none, none, none⟩ true (fun b => b) "n" (by decide)

/-- Whenever `_write_keyfile_data_to_file` returns successfully, the file
holds the written data with mode `S_IRUSR | S_IWUSR`. -/
theorem write_ok_mode (path : String) (fs : Option FileState) (answer : String)
    (data : Bytes) (overwrite : Bool)
    (hok : (write_keyfile_data_to_file path fs answer data overwrite).1
      = Except.ok ()) :
    (write_keyfile_data_to_file path fs answer data overwrite).2
      = some ⟨data, S_IRUSR ||| S_IWUSR⟩ := by
  by_cases hc : (fs.isSome && !overwrite && !may_overwrite answer) = true
  · exact absurd hok (by simp [write_keyfile_data_to_file, hc])
  · simp [write_keyfile_data_to_file, hc]

/-- C8: after every successful write performed by the keyfile object —
`set_keypair`, the `encrypt` method, or the `decrypt` method — the file's
permission mode is exactly `S_IRUSR | S_IWUSR` (decimal 384, octal 600):
owner read+write, with all group/other bits (the low six mode bits) zero.
The postcondition is unconditional on each success path. -/
theorem claim_C8_permissions_after_write :
    S_IRUSR ||| S_IWUSR = 384
    ∧ (∀ path fs keypair encryptFlag overwrite answer encryptFn,
        (keyfile_set_keypair path fs keypair encryptFlag overwrite answer
          encryptFn).1 = Except.ok () →
        ∃ st : FileState,
          (keyfile_set_keypair path fs keypair encryptFlag overwrite answer
            encryptFn).2 = some st
          ∧ st.mode = 384 ∧ st.mode % 64 = 0)
    ∧ (∀ path fs readable writable parseDict ss58Encode realize encryptFn,
        (keyfile_encrypt path fs readable writable parseDict ss58Encode
          realize encryptFn).1 = Except.ok () →
        ∃ st : FileState,
          (keyfile_encrypt path fs readable writable parseDict ss58Encode
            realize encryptFn).2 = some st
          ∧ st.mode = 384 ∧ st.mode % 64 = 0)
    ∧ (∀ path fs readable writable vaultLoad fernetDecrypt pbkdf2Sha256
          parseDict ss58Encode realize password,
        (keyfile_decrypt path fs readable writable vaultLoad fernetDecrypt
          pbkdf2Sha256 parseDict ss58Encode realize password).1
            = Except.ok () →
        ∃ st : FileState,
          (keyfile_decrypt path fs readable writable vaultLoad fernetDecrypt
            pbkdf2Sha256 parseDict ss58Encode realize password).2 = some st
          ∧ st.mode = 384 ∧ st.mode % 64 = 0) := by
  refine ⟨by decide, ?_, ?_, ?_⟩
  · intro path fs keypair encryptFlag overwrite answer encryptFn hok
    exact ⟨⟨_, S_IRUSR ||| S_IWUSR⟩,
      write_ok_mode path fs answer _ overwrite hok, rfl,
      show (S_IRUSR ||| S_IWUSR) % 64 = 0 from rfl⟩
  · intro path fs readable writable parseDict ss58Encode realize encryptFn hok
    cases fs with
    | none => exact absurd hok (by simp [keyfile_encrypt])
    | some st =>
      cases readable with
      | false => exact absurd hok (by simp [keyfile_encrypt])
      | true =>
        cases writable with
        | false => exact absurd hok (by simp [keyfile_encrypt])
        | true =>
          by_cases henc : keyfile_data_is_encrypted st.content = true
          · rw [show keyfile_encrypt path (some st) true true parseDict
                ss58Encode realize encryptFn
                = write_keyfile_data_to_file path (some st) "" st.content true
              from by simp [keyfile_encrypt, henc]] at hok ⊢
            exact ⟨⟨_, S_IRUSR ||| S_IWUSR⟩,
              write_ok_mode path (some st) "" _ true hok, rfl,
                show (S_IRUSR ||| S_IWUSR) % 64 = 0 from rfl⟩
          · rcases hdes : deserialize_keypair_from_keyfile_data parseDict
                ss58Encode st.content with e | dk
            · exact absurd hok (by simp [keyfile_encrypt, henc, hdes])
            · rw [show keyfile_encrypt path (some st) true true parseDict
                  ss58Encode realize encryptFn
                  = write_keyfile_data_to_file path (some st) ""
                      (encryptFn (serialized_keypair_to_keyfile_data
                        (realize dk))) true
                from by simp [keyfile_encrypt, henc, hdes]] at hok ⊢
              exact ⟨⟨_, S_IRUSR ||| S_IWUSR⟩,
                write_ok_mode path (some st) "" _ true hok, rfl,
                show (S_IRUSR ||| S_IWUSR) % 64 = 0 from rfl⟩
  · intro path fs readable writable vaultLoad fernetDecrypt pbkdf2Sha256
      parseDict ss58Encode realize password hok
    cases fs with
    | none => exact absurd hok (by simp [keyfile_decrypt])
    | some st =>
      cases readable with
      | false => exact absurd hok (by simp [keyfile_decrypt])
      | true =>
        cases writable with
        | false => exact absurd hok (by simp [keyfile_decrypt])
        | true =>
          rcases hdec : (if keyfile_data_is_encrypted st.content then
              decrypt_keyfile_data vaultLoad fernetDecrypt pbkdf2Sha256
                st.content password
            else Except.ok st.content) with e | data
          · exact absurd hok (by simp [keyfile_decrypt, hdec])
          · rcases hdes : deserialize_keypair_from_keyfile_data parseDict
                ss58Encode data with e | dk
            · exact absurd hok (by simp [keyfile_decrypt, hdec, hdes])
            · rw [show keyfile_decrypt path (some st) true true vaultLoad
                  fernetDecrypt pbkdf2Sha256 parseDict ss58Encode realize
                  password
                  = write_keyfile_data_to_file path (some st) ""
                      (serialized_keypair_to_keyfile_data (realize dk)) true
                from by simp [keyfile_decrypt, hdec, hdes]] at hok ⊢
              exact ⟨⟨_, S_IRUSR ||| S_IWUSR⟩,
                write_ok_mode path (some st) "" _ true hok, rfl,
                show (S_IRUSR ||| S_IWUSR) % 64 = 0 from rfl⟩

/-- Witness for C8 at concrete inputs: a fresh `set_keypair`, an `encrypt`
of a plaintext legacy-address file, and a `decrypt` of a Legacy blob, each
succeeding and each leaving mode 384 with zero group/other bits. -/
theorem claim_C8_permissions_after_write_witness :
    (∃ st : FileState,
      (keyfile_set_keypair "p" none ⟨none, none, none, none⟩ false false ""
        (fun b => b)).2 = some st ∧ st.mode = 384 ∧ st.mode % 64 = 0)
    ∧ (∃ st : FileState,
      (keyfile_encrypt "p" (some ⟨strToBytes "0xab", 0⟩) true true
        (fun _ => none) (fun s => s) (fun _ => ⟨none, none, none, none⟩)
        (fun b => b)).2 = some st ∧ st.mode = 384 ∧ st.mode % 64 = 0)
    ∧ (∃ st : FileState,
      (keyfile_decrypt "p" (some ⟨strToBytes "gAAAAAxxxx", 0⟩) true true
        (fun _ _ => VaultOutcome.authFailed)
        (fun _ _ => FernetOutcome.ok (strToBytes "0xab"))
        (fun _ _ _ _ => []) (fun _ => none) (fun s => s)
        (fun _ => ⟨none, none, none, none⟩) "pw").2 = some st
      ∧ st.mode = 384 ∧ st.mode % 64 = 0) :=
  ⟨claim_C8_permissions_after_write.2.1 _ _ _ _ _ _ _ rfl,
   claim_C8_permissions_after_write.2.2.1 _ _ _ _ _ _ _ _ rfl,
   claim_C8_permissions_after_write.2.2.2 _ _ _ _ _ _ _ _ _ _ _ rfl⟩

/-- C9: `validate_password` returns `false` (it never raises) for `None`
and for the empty password, for any password the composite policy
(`strength=0.20`, `entropybits=10`, `length=6`, evaluated by the external
`password_strength` library modelled by `policyOk` — which per the spec and
the repository's tests rejects `password`-like strings and `123456789`)
rejects, and for any policy-passing password whose re-entered confirmation
differs; it returns `true` exactly when the password is non-empty, passes
the policy, and equals the confirmation. -/
theorem claim_C9_password_validation
    (policyOk : String → Bool) (confirmation : String) :
    validate_password policyOk confirmation none = false
    ∧ validate_password policyOk confirmation (some "") = false
    ∧ (∀ pw, policyOk pw = false →
        validate_password policyOk confirmation (some pw) = false)
    ∧ (policyOk "password" = false →
        validate_password policyOk confirmation (some "password") = false)
    ∧ (policyOk "123456789" = false →
        validate_password policyOk confirmation (some "123456789") = false)
    ∧ (∀ pw, pw ≠ "" → policyOk pw = true → pw ≠ confirmation →
        validate_password policyOk confirmation (some pw) = false)
    ∧ (∀ pw, validate_password policyOk confirmation (some pw) = true ↔
        pw ≠ "" ∧ policyOk pw = true ∧ pw = confirmation) := by
  refine ⟨rfl, rfl, fun pw hpol => ?_, fun h => ?_, fun h => ?_,
    fun pw hne hpol hmis => ?_, fun pw => ?_⟩
  · by_cases he : pw = ""
    · simp [validate_password, he]
    · simp [validate_password, he, hpol]
  · simp [validate_password, h]
  · simp [validate_password, h]
  · simp [validate_password, hne, hpol, hmis]
  · by_cases he : pw = ""
    · simp [validate_password, he]
    · cases hpol : policyOk pw with
      | false => simp [validate_password, he, hpol]
      | true => simp [validate_password, he, hpol]

/-- Witness for C9 at concrete inputs: a policy accepting only
`biTTensor` rejects `password` and `123456789`; a matching confirmation is
accepted and a mismatched one rejected. -/
theorem claim_C9_password_validation_witness :
    validate_password (fun s => s == "biTTensor") "biTTensor" none = false
    ∧ validate_password (fun s => s == "biTTensor") "biTTensor"
        (some "password") = false
    ∧ validate_password (fun s => s == "biTTensor") "biTTensor"
        (some "123456789") = false
    ∧ validate_password (fun s => s == "biTTensor") "biTTensor"
        (some "biTTensor") = true
    ∧ validate_password (fun s => s == "biTTensor") "biTTenso"
        (some "biTTensor") = false :=
  ⟨(claim_C9_password_validation _ _).1,
   (claim_C9_password_validation _ _).2.2.2.1 (by decide),
   (claim_C9_password_validation _ _).2.2.2.2.1 (by decide),
   ((claim_C9_password_validation _ _).2.2.2.2.2.2 _).mpr
     ⟨by decide, by decide, rfl⟩,
   (claim_C9_password_validation _ _).2.2.2.2.2.1 _ (by decide) (by decide)
     (by decide)⟩

end BTKeyfile
